import Mathlib

/-
  Verification of the gnvim grid rendering engine.

  Shallow embedding of src/ui/grid/grid.rs, src/ui/grid/context.rs and
  src/ui/grid/render.rs. Rust f64 values are modelled as rationals (ℚ);
  `f64::floor`/`f64::ceil` become integer floor/ceil cast back to ℚ. Rust
  panics (`unwrap`) are modelled as `Option` with `none` for the panic;
  fallible operations return `Except Error`. Cairo surfaces are modelled
  symbolically as a trace of the paint operations applied to them.

  Parts of the repository referenced by the sources but not present under
  src/ (row.rs, cursor.rs, the Surfaces implementation, nvim_bridge, error.rs)
  are modelled from the spec; each such definition carries a doc comment
  saying so.
-/

/-- Floor of a rational, as a rational (model of `f64::floor`). -/
def qfloor (q : ℚ) : ℚ := ((⌊q⌋ : ℤ) : ℚ)

/-- Ceiling of a rational, as a rational (model of `f64::ceil`). -/
def qceil (q : ℚ) : ℚ := ((⌈q⌉ : ℤ) : ℚ)

/-- Model of `f64::ceil` followed by `as usize` (Rust saturating cast: negatives go to 0). -/
def qceilToNat (q : ℚ) : ℕ := (⌈q⌉).toNat

/-- Modelled from the spec: src/ui/color.rs is not under src/. An RGB color. -/
structure Color where
  r : ℚ
  g : ℚ
  b : ℚ
deriving DecidableEq

/-- Modelled from the spec: src/ui/font.rs is not under src/. A font descriptor. -/
structure Font where
  guifont : String
deriving DecidableEq

/-- Modelled from the spec: src/ui/color.rs is not under src/. A highlight definition
(§6: colors plus emphasis flags, any color may be unset). -/
structure Highlight where
  foreground : Option Color
  background : Option Color
  special : Option Color
  bold : Bool
  italic : Bool
  underline : Bool
  undercurl : Bool
  reverse : Bool
deriving DecidableEq

/-- Modelled from the spec: src/ui/color.rs is not under src/. The highlight table
with the default colors (§6: `get(hl_id)` resolves an id to a highlight). -/
structure HlDefs where
  defs : List (ℕ × Highlight)
  default_fg : Color
  default_bg : Color
  default_sp : Color
deriving DecidableEq

def HlDefs.get (hl_defs : HlDefs) (id : ℕ) : Option Highlight :=
  (hl_defs.defs.find? (fun p => p.1 == id)).map Prod.snd

/-- Modelled from the spec: src/ui/grid/row.rs is not under src/. A cell holds a
character text, a highlight id and a double-width flag (§3 Data Model). -/
structure Cell where
  text : String
  hl_id : ℕ
  double_width : Bool
deriving DecidableEq

/-- Modelled from the spec: src/ui/grid/row.rs is not under src/. A segment is a
run of same-highlight cells `(start_col, length, hl_id, text)` (§3 Data Model);
field names follow the uses in src/ui/grid/render.rs (`seg.start`, `seg.len`,
`seg.hl_id`, `seg.text`). -/
structure Segment where
  start : ℕ
  len : ℕ
  hl_id : ℕ
  text : String
deriving DecidableEq

/-- Modelled from the spec: src/nvim_bridge.rs is not under src/. One cell chunk of
a line update, with the compact repeat-last-cell encoding (§4.2). -/
structure GridCell where
  text : String
  hl_id : ℕ
  rep : ℕ
deriving DecidableEq

/-- Modelled from the spec: src/nvim_bridge.rs is not under src/. A line update:
target row, starting column and the cell chunks applied left to right (§4.2). -/
structure GridLineSegment where
  row : ℕ
  col_start : ℕ
  cells : List GridCell
deriving DecidableEq

/-- Modelled from the spec: src/error.rs is not under src/. The error variants used
by the files under src/ (`Error::GetPangoMetrics()` in context.rs and
`Error::PutLineRowNotFound(row)` in grid.rs). -/
inductive Error where
  | GetPangoMetrics
  | PutLineRowNotFound (row : ℕ)
deriving DecidableEq

/-- Default cell (§4.2: resize pads with "default (space, hl 0) cells"). -/
def defaultCell : Cell := { text := " ", hl_id := 0, double_width := false }

/-- Modelled from the spec: `Row::new(cols)` builds a row of default cells. -/
def Row.new (cols : ℕ) : List Cell := List.replicate cols defaultCell

/-- Modelled from the spec: `Row::resize(cols)` truncates or pads with default
cells (§4.2). -/
def Row.resize (row : List Cell) (cols : ℕ) : List Cell :=
  row.take cols ++ List.replicate (cols - row.length) defaultCell

/-- Modelled from the spec: `Row::cell_at(col)` (used by `Context::cell_at_cursor`). -/
def Row.cell_at (row : List Cell) (col : ℕ) : Option Cell := row.get? col

/-- Run-length encoding of a list of cells starting at column `i`: consecutive
cells with identical highlight merge into one segment (§4.2 `as_segments`). -/
def segmentsFrom : ℕ → List Cell → List Segment
  | _, [] => []
  | i, c :: rest =>
    match segmentsFrom (i + 1) rest with
    | [] => [{ start := i, len := 1, hl_id := c.hl_id, text := c.text }]
    | s :: ss =>
      if c.hl_id = s.hl_id then
        { start := i, len := s.len + 1, hl_id := c.hl_id, text := c.text ++ s.text } :: ss
      else
        { start := i, len := 1, hl_id := c.hl_id, text := c.text } :: s :: ss

/-- Modelled from the spec: `Row::as_segments(lo, hi)` run-length-encodes the
column range `[lo, hi)` by equal highlight id (§4.2). -/
def Row.as_segments (row : List Cell) (lo hi : ℕ) : List Segment :=
  segmentsFrom lo ((row.drop lo).take (hi - lo))

/-- Writes the given cells into the row left to right starting at column `i`
(positions beyond the row length are ignored, as `List.set` is). -/
def writeCells : List Cell → ℕ → List Cell → List Cell
  | row, _, [] => row
  | row, i, c :: cs => writeCells (row.set i c) (i + 1) cs

/-- Modelled from the spec: `Row::update(line)` applies the update chunks
(expanding the repeat encoding) left to right from `col_start` and returns the
new row together with the affected segments of the updated column range
(§4.2 `apply_line_update`). -/
def Row.update (row : List Cell) (line : GridLineSegment) : List Cell × List Segment :=
  let flat := (line.cells.map (fun u =>
    List.replicate (max u.rep 1) { text := u.text, hl_id := u.hl_id, double_width := false })).flatten
  let newRow := writeCells row line.col_start flat
  (newRow, Row.as_segments newRow line.col_start
    (min (line.col_start + flat.length) newRow.length))

/-- Pango metrics as returned by the measurement backend, in pango units
(1024 units per pixel); `Context::update` reads ascent, descent,
approximate char width, underline position and underline thickness. -/
structure PangoFontMetrics where
  ascent : ℤ
  descent : ℤ
  approximate_char_width : ℤ
  underline_position : ℤ
  underline_thickness : ℤ
deriving DecidableEq

/-- The pango scale constant (`pango::SCALE` = 1024). -/
def pangoScale : ℚ := 1024

/-- Cell metrics, from src/ui/grid/context.rs (struct `CellMetrics`). -/
structure CellMetrics where
  height : ℚ
  width : ℚ
  ascent : ℚ
  decent : ℚ
  underline_thickness : ℚ
  underline_position : ℚ
  line_space : ℤ
  font : Font
deriving DecidableEq

/-- `CellMetrics::default()`. -/
def CellMetrics.default : CellMetrics :=
  { height := 0, width := 0, ascent := 0, decent := 0
    underline_thickness := 0, underline_position := 0
    line_space := 0, font := { guifont := "" } }

/-- `CellMetrics::update` from src/ui/grid/context.rs: fails with
`Error::GetPangoMetrics` when the backend returns no metrics (`fm` is `none`),
otherwise recomputes all pixel fields; ascent and descent add half the line
space and round up, height is their sum, the underline thickness is doubled. -/
def CellMetrics.update (cm : CellMetrics) (fm : Option PangoFontMetrics) :
    Except Error CellMetrics :=
  match fm with
  | none => .error .GetPangoMetrics
  | some fm =>
    let extra : ℚ := (cm.line_space : ℚ) / 2
    let scale : ℚ := pangoScale
    let ascent := qceil ((fm.ascent : ℚ) / scale + extra)
    let decent := qceil ((fm.descent : ℚ) / scale + extra)
    .ok { cm with
      ascent := ascent
      decent := decent
      height := ascent + decent
      width := (fm.approximate_char_width : ℚ) / scale
      underline_position := (fm.underline_position : ℚ) / scale - extra
      underline_thickness := (fm.underline_thickness : ℚ) / scale * 2 }

/-- Symbolic content of a cairo surface: the trace of paint operations applied
to it. `textRun` is one `render_text` call from src/ui/grid/render.rs;
`copyClipped base old w h` is `old` painted over `base` with operator Source,
clipped to the rectangle `(0, 0, w, h)` (the salvage step of `Context::resize`). -/
inductive SurfaceOps where
  | bgFill (c : Color)
  | textRun (prev : SurfaceOps) (seg : Segment) (row : ℕ) (fg bg : Color)
  | copyClipped (base : SurfaceOps) (old : SurfaceOps) (w h : ℚ)
deriving DecidableEq

/-- Modelled from the spec: the Surfaces implementation is not under src/.
The in-flight scroll animation state (§3 SurfaceSet, §4.3); `start` is the
offset the animation started from (read by `drawingarea_draw` in grid.rs as
`anim.start`). -/
structure Anim where
  start : ℚ
  target : ℚ
  start_time : ℤ
  duration : ℤ
deriving DecidableEq

/-- Modelled from the spec: the Surfaces implementation is not under src/.
Three drawable surfaces plus the vertical scroll-offset animation state
(fields `front`, `back`, `prev`, `offset_y`, `offset_y_anim` as used by
grid.rs and context.rs). -/
structure Surfaces where
  front : SurfaceOps
  back : SurfaceOps
  prev : SurfaceOps
  offset_y : ℚ
  offset_y_anim : Option Anim
deriving DecidableEq

/-- Modelled from the spec: `Surfaces::new` allocates the three surfaces and
paints all three with the default background (§4.3); offset and animation
start out cleared. -/
def Surfaces.new (cm : CellMetrics) (rows cols : ℕ) (default_bg : Color) : Surfaces :=
  { front := .bgFill default_bg
    back := .bgFill default_bg
    prev := .bgFill default_bg
    offset_y := 0
    offset_y_anim := none }

/-- Modelled from the spec: `Surfaces::tick(frame_time)` advances the offset
linearly, reaching exactly the target at or after `start_time + duration` and
clearing the animation once complete; returns whether the composited surface
changed (§4.3). -/
def Surfaces.tick (s : Surfaces) (frame_time : ℤ) : Surfaces × Bool :=
  match s.offset_y_anim with
  | none => (s, false)
  | some a =>
    if a.start_time + a.duration ≤ frame_time then
      ({ s with offset_y := a.target, offset_y_anim := none }, true)
    else
      let t : ℚ := ((frame_time - a.start_time : ℤ) : ℚ) / ((a.duration : ℤ) : ℚ)
      ({ s with offset_y := a.start + (a.target - a.start) * t }, true)

/-- Modelled from the spec: src/ui/grid/cursor.rs is not under src/. Cursor
state as used by context.rs and grid.rs: screen position (`pos`), blink phase
(`alpha`), blink rate (`blink_on`), the cell fill percentage, color and the
animation-disabled flag (§3 Cursor, §4.4). -/
structure Cursor where
  pos : Option (ℚ × ℚ)
  alpha : ℚ
  blink_on : ℕ
  cell_percentage : ℚ
  color : Color
  disable_animation : Bool
deriving DecidableEq

/-- `Cursor::default()`: no position yet, everything zeroed. -/
def Cursor.default : Cursor :=
  { pos := none, alpha := 0, blink_on := 0, cell_percentage := 0
    color := { r := 0, g := 0, b := 0 }, disable_animation := false }

/-- Modelled from the spec: the blink phase cycles within `[0, 2]` as the frame
clock advances when `blink_on` is nonzero (§4.4). -/
def blinkPhase (blink_on : ℕ) (frame_time : ℤ) : ℚ :=
  let m : ℤ := frame_time % (2 * (blink_on : ℤ))
  (m : ℚ) / (blink_on : ℚ)

/-- Modelled from the spec: `Cursor::tick(frame_time)` advances the blink phase
when `blink_on` is nonzero (§4.4; the position interpolation is not modelled,
no claim depends on it). -/
def Cursor.tick (c : Cursor) (frame_time : ℤ) : Cursor :=
  if c.blink_on = 0 then c else { c with alpha := blinkPhase c.blink_on frame_time }

/-- Modelled from the spec: `Cursor::get_position()` (§4.4). -/
def Cursor.get_position (c : Cursor) : Option (ℚ × ℚ) := c.pos

/-- Symbolic content of the cursor's dedicated cairo surface. `blinkFill` is
the alpha-blended rectangle painted by `Context::tick`; `cellDraw` is the
inverted cell painted by `render::cursor_cell` — `render_text` sets its
sources with `set_source_rgb`, i.e. fully opaque, which is recorded as alpha 1. -/
inductive CursorDraw where
  | init
  | blinkFill (color : Color) (alpha : ℚ)
  | cellDraw (cell : Cell) (fg bg : Color) (alpha : ℚ)
deriving DecidableEq

/-- Extracts the alpha a cursor-surface draw used, if any draw happened. -/
def CursorDraw.alphaOf : CursorDraw → Option ℚ
  | .init => none
  | .blinkFill _ a => some a
  | .cellDraw _ _ _ a => some a

/-- A pending invalidation rectangle, as queued in `Context::queue_draw_area`
(a `Vec<(f64, f64, f64, f64)>` in context.rs). -/
structure Rect where
  x : ℚ
  y : ℚ
  w : ℚ
  h : ℚ
deriving DecidableEq

/-- The grid context, from src/ui/grid/context.rs (struct `Context`).
`cursor_context` is the cursor's dedicated cairo surface, modelled by its
last draw. -/
structure Context where
  surfaces : Surfaces
  cell_metrics : CellMetrics
  rows : List (List Cell)
  cursor : Cursor
  cursor_context : CursorDraw
  busy : Bool
  active : Bool
  scroll_speed : ℤ
  queue_draw_area : List Rect
deriving DecidableEq

/-- `Cursor::new_cairo_context`: allocates a fresh surface sized by the given
metrics; modelled as the blank cursor surface. -/
def newCursorContext (cm : CellMetrics) : CursorDraw := .init

/-- `render::get_coords` from src/ui/grid/render.rs: `(col * w, row * h)`. -/
def get_coords (h w row col : ℚ) : ℚ × ℚ := (col * w, row * h)

/-- The rectangle `put_segments` (src/ui/grid/render.rs) computes for a segment:
origin `(start * cw, row * ch)` floored, extent `(len * cw, ch)` ceiled. -/
def segRect (start len row : ℕ) (cw ch : ℚ) : Rect :=
  { x := qfloor ((start : ℚ) * cw)
    y := qfloor ((row : ℚ) * ch)
    w := qceil ((len : ℚ) * cw)
    h := qceil ch }

/-- The foreground/background resolution of `render_text`
(src/ui/grid/render.rs): unset colors fall back to the defaults, and the pair
is swapped when the highlight has `reverse` set. -/
def resolveColors (hl : Highlight) (hl_defs : HlDefs) : Color × Color :=
  if hl.reverse then
    (hl.background.getD hl_defs.default_bg, hl.foreground.getD hl_defs.default_fg)
  else
    (hl.foreground.getD hl_defs.default_fg, hl.background.getD hl_defs.default_bg)

/-- `render_text` from src/ui/grid/render.rs, recorded symbolically: one text
run painted onto the surface with the resolved colors. -/
def render_text (surface : SurfaceOps) (hl : Highlight) (hl_defs : HlDefs)
    (seg : Segment) (row : ℕ) : SurfaceOps :=
  .textRun surface seg row (resolveColors hl hl_defs).1 (resolveColors hl hl_defs).2

/-- `render::cursor_cell` from src/ui/grid/render.rs: looks up the cell's
highlight (`unwrap` — `none` models the panic), flips its `reverse` flag and
paints the cell via `render_text`, whose color sources are set with
`set_source_rgb`, i.e. opaque (alpha 1). -/
def cursor_cell (cell : Cell) (cm : CellMetrics) (hl_defs : HlDefs) : Option CursorDraw :=
  (hl_defs.get cell.hl_id).map (fun hl0 =>
    let hl : Highlight := { hl0 with reverse := !hl0.reverse }
    .cellDraw cell (resolveColors hl hl_defs).1 (resolveColors hl hl_defs).2 1)

/-- `put_segments` from src/ui/grid/render.rs: for each segment in the order
given, look up its highlight (`unwrap` — `none` models the panic), paint it
onto the front surface at its pixel rectangle and append that rectangle to
`queue_draw_area`. -/
def put_segments (ctx : Context) (hl_defs : HlDefs) (segments : List Segment)
    (row : ℕ) : Option Context :=
  match segments with
  | [] => some ctx
  | seg :: rest =>
    match hl_defs.get seg.hl_id with
    | none => none
    | some hl =>
      let pos := segRect seg.start seg.len row ctx.cell_metrics.width ctx.cell_metrics.height
      put_segments
        { ctx with
          surfaces := { ctx.surfaces with
            front := render_text ctx.surfaces.front hl hl_defs seg row }
          queue_draw_area := ctx.queue_draw_area ++ [pos] }
        hl_defs rest row

/-- Painting a list of segments onto a surface in exactly the order the list
gives them (the specification of the painter's ordering behaviour). -/
def paintFold (hl_defs : HlDefs) (row : ℕ) (surface : SurfaceOps) :
    List Segment → Option SurfaceOps
  | [] => some surface
  | seg :: rest =>
    match hl_defs.get seg.hl_id with
    | none => none
    | some hl => paintFold hl_defs row (render_text surface hl hl_defs seg row) rest

/-- `Context::new` from src/ui/grid/context.rs: computes the initial cell
metrics from the given font and line space (failing if the measurement
backend returns no metrics), allocates the surfaces and the cursor surface,
and starts with an empty row store, not busy and not active. -/
def Context.new (font : Font) (line_space : ℤ) (cols rows : ℕ) (hl_defs : HlDefs)
    (enable_cursor_animations : Bool) (scroll_speed : ℤ)
    (fm : Option PangoFontMetrics) : Except Error Context :=
  let cm0 : CellMetrics := { CellMetrics.default with font := font, line_space := line_space }
  match CellMetrics.update cm0 fm with
  | .error e => .error e
  | .ok cm =>
    .ok { surfaces := Surfaces.new cm rows cols hl_defs.default_bg
          cell_metrics := cm
          rows := []
          cursor := { Cursor.default with disable_animation := !enable_cursor_animations }
          cursor_context := newCursorContext cm
          busy := false
          active := false
          scroll_speed := scroll_speed
          queue_draw_area := [] }

/-- `Vec::resize_with(n, || Row::new(cols))`: truncate or extend with fresh rows. -/
def resizeWith (rows : List (List Cell)) (n : ℕ) (cols : ℕ) : List (List Cell) :=
  rows.take n ++ List.replicate (n - rows.length) (Row.new cols)

/-- `Context::resize` from src/ui/grid/context.rs. Records the previous row and
column counts, resizes the row store, then reads `self.rows.get(0).unwrap()`
(`none` models that panic on an empty row store), recomputes the cell metrics
(propagating `GetPangoMetrics` after the row store has already been resized),
reallocates the surfaces keeping `offset_y` and `offset_y_anim`, and copies the
old front surface content clipped to `cell_metrics.width * prev_cols` by
`cell_metrics.height * prev_rows` computed with the freshly updated metrics. -/
def Context.resize (ctx : Context) (cols rows : ℕ) (fm : Option PangoFontMetrics)
    (hl_defs : HlDefs) : Option (Context × Except Error Unit) :=
  let prev_rows := ctx.rows.length
  let prev_cols := (ctx.rows.head?.map List.length).getD 0
  let rows1 := if ctx.rows.length ≠ rows then resizeWith ctx.rows rows cols else ctx.rows
  match rows1.head? with
  | none => none
  | some r0 =>
    let rows2 := if r0.length ≠ cols then rows1.map (fun r => Row.resize r cols) else rows1
    match CellMetrics.update ctx.cell_metrics fm with
    | .error e => some ({ ctx with rows := rows2 }, .error e)
    | .ok cm =>
      let fresh := Surfaces.new cm rows cols hl_defs.default_bg
      some ({ ctx with
                rows := rows2
                cell_metrics := cm
                surfaces := { fresh with
                  offset_y := ctx.surfaces.offset_y
                  offset_y_anim := ctx.surfaces.offset_y_anim
                  front := .copyClipped fresh.front ctx.surfaces.front
                    (cm.width * (prev_cols : ℚ)) (cm.height * (prev_rows : ℚ)) } },
            .ok ())

/-- `Context::update_metrics` from src/ui/grid/context.rs: assigns the new font
and line space into `cell_metrics` first, then recomputes the metrics — so a
`GetPangoMetrics` failure leaves the freshly assigned font and line space in
place while the pixel fields keep their previous values — and on success
reallocates the cursor surface. -/
def Context.update_metrics (ctx : Context) (font : Font) (line_space : ℤ)
    (fm : Option PangoFontMetrics) : Context × Except Error Unit :=
  let cm0 : CellMetrics := { ctx.cell_metrics with font := font, line_space := line_space }
  match CellMetrics.update cm0 fm with
  | .error e => ({ ctx with cell_metrics := cm0 }, .error e)
  | .ok cm1 => ({ ctx with cell_metrics := cm1, cursor_context := newCursorContext cm1 }, .ok ())

/-- `Context::cell_at_cursor` from src/ui/grid/context.rs: the cell under the
cursor position, ceiling both coordinates (`pos.0.ceil() as usize`). -/
def Context.cell_at_cursor (ctx : Context) : Option Cell :=
  (Cursor.get_position ctx.cursor).bind (fun pos =>
    (ctx.rows.get? (qceilToNat pos.1)).bind (fun row => Row.cell_at row (qceilToNat pos.2)))

/-- `Context::get_cursor_rect` from src/ui/grid/context.rs: floored screen
origin of the (possibly animating) cursor position, width
`(cell_width * 2).ceil()` when the cell under the cursor is double width and
`cell_width.ceil()` otherwise, height `cell_height.ceil()`. -/
def Context.get_cursor_rect (ctx : Context) : ℤ × ℤ × ℤ × ℤ :=
  let double_width := (ctx.cell_at_cursor.map Cell.double_width).getD false
  let pos := ctx.cursor.pos.getD (0, 0)
  let cm := ctx.cell_metrics
  let xy := get_coords cm.height cm.width pos.1 pos.2
  (⌊xy.1⌋, ⌊xy.2⌋,
    if double_width then ⌈cm.width * 2⌉ else ⌈cm.width⌉,
    ⌈cm.height⌉)

/-- The alpha folding in `Context::tick` (src/ui/grid/context.rs): the blink
phase is used directly while it is at most 1 and reflected as `2 - phase`
beyond that. -/
def renderAlpha (phase : ℚ) : ℚ := if phase > 1 then 2 - phase else phase

/-- Host-visible side effects of `Context::tick`: a full `queue_draw` and the
immediate `queue_draw_area(x, y, w, h)` calls on the drawing area. -/
inductive TickEffect where
  | queueDraw
  | queueDrawArea (x y w h : ℤ)
deriving DecidableEq

/-- `Context::tick` from src/ui/grid/context.rs: advances the surface
animation (queueing a full redraw if it changed), invalidates the cursor
rectangle, ticks the cursor, and — unless `blink_on` is 0, in which case the
blink phase is skipped entirely — folds the blink phase into an alpha and
repaints the cursor surface with it, requesting an immediate redraw of the
cursor rectangle. -/
def Context.tick (ctx : Context) (frame_time : ℤ) : Context × List TickEffect :=
  let st := Surfaces.tick ctx.surfaces frame_time
  let ctx1 := { ctx with surfaces := st.1 }
  let effs0 := if st.2 then [TickEffect.queueDraw] else []
  let r1 := ctx1.get_cursor_rect
  let effs1 := effs0 ++ [TickEffect.queueDrawArea r1.1 r1.2.1 r1.2.2.1 r1.2.2.2]
  let ctx2 := { ctx1 with cursor := Cursor.tick ctx1.cursor frame_time }
  if ctx2.cursor.blink_on = 0 then
    (ctx2, effs1)
  else
    let r2 := ctx2.get_cursor_rect
    let alpha := renderAlpha ctx2.cursor.alpha
    ({ ctx2 with cursor_context := .blinkFill ctx2.cursor.color alpha },
      effs1 ++ [TickEffect.queueDrawArea r2.1 r2.2.1 r2.2.2.1 r2.2.2.2])

/-- `Grid::put_line` from src/ui/grid/grid.rs: looks the row up, failing with
`Error::PutLineRowNotFound` when it does not exist (before touching any
state), otherwise applies the update to the row store, reverses the affected
segments and paints them via `put_segments`. -/
def Grid.put_line (ctx : Context) (line : GridLineSegment) (hl_defs : HlDefs) :
    Option (Context × Except Error Unit) :=
  match ctx.rows.get? line.row with
  | none => some (ctx, .error (.PutLineRowNotFound line.row))
  | some row0 =>
    let upd := Row.update row0 line
    let ctx1 := { ctx with rows := ctx.rows.set line.row upd.1 }
    (put_segments ctx1 hl_defs upd.2.reverse line.row).map (fun c => (c, .ok ()))

/-- The floor/ceil rounding `Grid::flush` applies when draining
`queue_draw_area` (`Vec::pop` drains from the back, hence the reversal). -/
def flushAreas (areas : List Rect) : List (ℤ × ℤ × ℤ × ℤ) :=
  areas.reverse.map (fun a => (⌊a.x⌋, ⌊a.y⌋, ⌈a.w⌉, ⌈a.h⌉))

/-- `Grid::flush` from src/ui/grid/grid.rs: when a cell sits under the cursor,
repaints the inverted cell into the cursor surface if the cursor is not
blinking (`blink_on == 0`), updates the cursor color from the cell's highlight
(`unwrap` — `none` models the panic), then drains the queued dirty rectangles
(floored origin, ceiled extent) to the drawing area. -/
def Grid.flush (ctx : Context) (hl_defs : HlDefs) :
    Option (Context × List (ℤ × ℤ × ℤ × ℤ)) :=
  match ctx.cell_at_cursor with
  | none => some ({ ctx with queue_draw_area := [] }, flushAreas ctx.queue_draw_area)
  | some cell =>
    let cd0 : Option CursorDraw :=
      if ctx.cursor.blink_on = 0 then cursor_cell cell ctx.cell_metrics hl_defs
      else some ctx.cursor_context
    match cd0 with
    | none => none
    | some cd =>
      match hl_defs.get cell.hl_id with
      | none => none
      | some hl =>
        some ({ ctx with
                  cursor_context := cd
                  cursor := { ctx.cursor with color := hl.foreground.getD hl_defs.default_fg }
                  queue_draw_area := [] },
              flushAreas ctx.queue_draw_area)

/-- `Grid::set_active` from src/ui/grid/grid.rs: sets the active flag only. -/
def Grid.set_active (ctx : Context) (active : Bool) : Context :=
  { ctx with active := active }

/-- `Grid::set_busy` from src/ui/grid/grid.rs: sets the busy flag only. -/
def Grid.set_busy (ctx : Context) (busy : Bool) : Context :=
  { ctx with busy := busy }

/-- `GridMetrics` from src/ui/grid/grid.rs. -/
structure GridMetrics where
  rows : ℚ
  cols : ℚ
  cell_height : ℚ
  cell_width : ℚ
  height : ℚ
  width : ℚ
deriving DecidableEq

/-- `Grid::get_grid_metrics` from src/ui/grid/grid.rs: reads
`ctx.rows.get(0).unwrap()` (`none` models that panic on an empty row store)
and derives the grid and pixel dimensions from the row store and metrics. -/
def Grid.get_grid_metrics (ctx : Context) : Option GridMetrics :=
  ctx.rows.head?.map (fun row =>
    { rows := (ctx.rows.length : ℚ)
      cols := (row.length : ℚ)
      cell_width := ctx.cell_metrics.width
      cell_height := ctx.cell_metrics.height
      width := (row.length : ℚ) * ctx.cell_metrics.width
      height := (ctx.rows.length : ℚ) * ctx.cell_metrics.height })

/-- The surfaces `drawingarea_draw` can paint from. -/
inductive SurfId where
  | front
  | back
  | prev
deriving DecidableEq

/-- One paint operation of the `drawingarea_draw` callback
(src/ui/grid/grid.rs): painting a source surface onto `prev` at an offset,
compositing `prev` onto the screen, or drawing the cursor surface clipped to
`width * cell_percentage`. -/
inductive PaintOp where
  | surfacePaint (src : SurfId) (x y : ℚ)
  | compositeToScreen
  | cursorPaint (x y : ℤ) (clip_w : ℚ) (h : ℤ)
deriving DecidableEq

/-- `drawingarea_draw` from src/ui/grid/grid.rs: when a scroll animation is
active the back surface is first painted at `offset_y - anim.start`; the front
surface is always painted at `offset_y`; the composite is copied to the
screen; and the cursor is drawn only when the context is not busy and active. -/
def drawingarea_draw (ctx : Context) : List PaintOp :=
  (match ctx.surfaces.offset_y_anim with
   | some anim => [PaintOp.surfacePaint .back 0 (ctx.surfaces.offset_y - anim.start)]
   | none => []) ++
  [PaintOp.surfacePaint .front 0 ctx.surfaces.offset_y, PaintOp.compositeToScreen] ++
  (if !ctx.busy && ctx.active then
    [PaintOp.cursorPaint ctx.get_cursor_rect.1 ctx.get_cursor_rect.2.1
      ((ctx.get_cursor_rect.2.2.1 : ℚ) * ctx.cursor.cell_percentage)
      ctx.get_cursor_rect.2.2.2]
  else [])

/-- The surface paints of a draw callback, in order, with their y offsets. -/
def surfacePaints (ops : List PaintOp) : List (SurfId × ℚ) :=
  ops.filterMap (fun op =>
    match op with
    | .surfacePaint s _ y => some (s, y)
    | _ => none)

/-- Whether a draw callback painted the cursor. -/
def drawsCursor (ops : List PaintOp) : Bool :=
  ops.any (fun op =>
    match op with
    | .cursorPaint _ _ _ _ => true
    | _ => false)

/-- The coverage property claimed for the dirty rectangle of a segment
spanning columns `[start, start+len)` of row `row`: the floored origin lies at
or before the true pixel origin and origin plus ceiled extent reaches the true
pixel end in both axes. -/
def dirtyCovers (start len row : ℕ) (cw ch : ℚ) : Prop :=
  (segRect start len row cw ch).x ≤ (start : ℚ) * cw ∧
  (segRect start len row cw ch).y ≤ (row : ℚ) * ch ∧
  ((start : ℚ) + (len : ℚ)) * cw ≤ (segRect start len row cw ch).x + (segRect start len row cw ch).w ∧
  ((row : ℚ) + 1) * ch ≤ (segRect start len row cw ch).y + (segRect start len row cw ch).h

/-- Test fixture: a plain highlight with every color unset and no flags. -/
def hlPlain : Highlight :=
  { foreground := none, background := none, special := none
    bold := false, italic := false, underline := false, undercurl := false, reverse := false }

/-- Test fixture: highlight 1, with the reverse flag set. -/
def hlRev : Highlight := { hlPlain with reverse := true }

/-- Test fixture: a highlight table resolving ids 0 and 1. -/
def testHl : HlDefs :=
  { defs := [(0, hlPlain), (1, hlRev)]
    default_fg := { r := 1, g := 1, b := 1 }
    default_bg := { r := 0, g := 0, b := 0 }
    default_sp := { r := 1, g := 0, b := 0 } }

/-- Test fixture: a font descriptor. -/
def fontA : Font := { guifont := "Monospace 12" }

/-- Test fixture: pango metrics (2048 units ascent, 1024 descent, 2048 char
width, underline at 0 with thickness 512), i.e. 2, 1, 2, 0 and 1/2 pixels. -/
def fmA : PangoFontMetrics :=
  { ascent := 2048, descent := 1024, approximate_char_width := 2048
    underline_position := 0, underline_thickness := 512 }

/-- Test fixture: integral cell metrics (2 by 3 pixel cells). -/
def cmBase : CellMetrics :=
  { height := 3, width := 2, ascent := 2, decent := 1
    underline_thickness := 1, underline_position := 0, line_space := 0, font := fontA }

/-- Test fixture: an active, not busy context over a 2 by 2 grid. -/
def ctxBase : Context :=
  { surfaces := Surfaces.new cmBase 2 2 testHl.default_bg
    cell_metrics := cmBase
    rows := [Row.new 2, Row.new 2]
    cursor := Cursor.default
    cursor_context := .init
    busy := false
    active := true
    scroll_speed := 100
    queue_draw_area := [] }

/-- Test fixture: an in-flight scroll animation that started at offset 2. -/
def animA : Anim := { start := 2, target := 6, start_time := 0, duration := 100 }

/-- Test fixture: `ctxBase` mid scroll animation at offset 7. -/
def ctxAnim : Context :=
  { ctxBase with surfaces :=
      { ctxBase.surfaces with offset_y := 7, offset_y_anim := some animA } }

/-- Test fixture: `ctxBase` with a blinking cursor (`blink_on = 3`). -/
def ctxBlink : Context :=
  { ctxBase with cursor := { Cursor.default with blink_on := 3 } }

/-- Test fixture: `ctxBase` with a non-blinking cursor placed on cell (0, 0). -/
def ctxCell : Context :=
  { ctxBase with cursor := { Cursor.default with pos := some (0, 0) } }

/-- Test fixture: a line update addressed to row 5, out of range for `ctxBase`. -/
def lineOut : GridLineSegment := { row := 5, col_start := 0, cells := [] }

/-- Test fixture: an in-range line update writing "B" with highlight 1 twice
from column 0 of row 0. -/
def lineIn : GridLineSegment :=
  { row := 0, col_start := 0, cells := [{ text := "B", hl_id := 1, rep := 2 }] }

/-- Test fixture: the result of the in-range `put_line` on `ctxBase`. -/
def putLineRes : Context × Except Error Unit :=
  (Grid.put_line ctxBase lineIn testHl).getD (ctxBase, .error .GetPangoMetrics)

/-- Test fixture: the result of resizing `ctxBase` to 3 by 3 with `fmA`. -/
def resizeRes : Context × Except Error Unit :=
  (Context.resize ctxBase 3 3 (some fmA) testHl).getD (ctxBase, .error .GetPangoMetrics)

/-- Test fixture: the result of resizing `ctxBase` with no pango metrics. -/
def resizeErrRes : Context × Except Error Unit :=
  (Context.resize ctxBase 3 3 none testHl).getD (ctxBase, .ok ())

/-- Test fixture: the context built by `Context::new` with `fmA`. -/
def newCtxA : Context :=
  (Context.new fontA 0 3 2 testHl true 100 (some fmA)).toOption.getD ctxBase

/-- Test fixture: the result of flushing `ctxCell`. -/
def flushRes : Context × List (ℤ × ℤ × ℤ × ℤ) :=
  (Grid.flush ctxCell testHl).getD (ctxCell, [])

/-- Test fixture: the context after the in-range empty-cell `put_line` on
`ctxBase` (row 0 rewritten with its previous content). -/
def c1InCtx : Context := { ctxBase with rows := ctxBase.rows.set 0 (Row.new 2) }

/-- Test fixture: the affected segment produced by `lineIn` on a fresh row. -/
def segB : Segment := { start := 0, len := 2, hl_id := 1, text := "BB" }

/-- Test fixture: the result of painting `segB` on `ctxBase` directly. -/
def putSegRes : Context := (put_segments ctxBase testHl [segB] 0).getD ctxBase

theorem qfloor_le (q : ℚ) : qfloor q ≤ q := by
  unfold qfloor
  exact_mod_cast Int.floor_le q

theorem le_qceil (q : ℚ) : q ≤ qceil q := by
  unfold qceil
  exact_mod_cast Int.le_ceil q

theorem blinkPhase_nonneg (b : ℕ) (ft : ℤ) (hb : b ≠ 0) : 0 ≤ blinkPhase b ft := by
  unfold blinkPhase
  have h2b : (0 : ℤ) < 2 * (b : ℤ) := by positivity
  have hm : (0 : ℤ) ≤ ft % (2 * (b : ℤ)) := Int.emod_nonneg ft (by omega)
  have hbq : (0 : ℚ) < (b : ℚ) := by exact_mod_cast Nat.pos_of_ne_zero hb
  exact div_nonneg (by exact_mod_cast hm) (le_of_lt hbq)

theorem blinkPhase_lt_two (b : ℕ) (ft : ℤ) (hb : b ≠ 0) : blinkPhase b ft < 2 := by
  unfold blinkPhase
  have h2b : (0 : ℤ) < 2 * (b : ℤ) := by positivity
  have hm : ft % (2 * (b : ℤ)) < 2 * (b : ℤ) := Int.emod_lt_of_pos ft h2b
  have hbq : (0 : ℚ) < (b : ℚ) := by exact_mod_cast Nat.pos_of_ne_zero hb
  rw [div_lt_iff₀ hbq]
  exact_mod_cast hm

theorem renderAlpha_mem (p : ℚ) (h0 : 0 ≤ p) (h2 : p ≤ 2) :
    0 ≤ renderAlpha p ∧ renderAlpha p ≤ 1 := by
  unfold renderAlpha
  split <;> constructor <;> linarith

theorem put_segments_paintFold (hl_defs : HlDefs) (segs : List Segment) :
    ∀ (c : Context) (r : ℕ) (c2 : Context),
      put_segments c hl_defs segs r = some c2 →
      paintFold hl_defs r c.surfaces.front segs = some c2.surfaces.front := by
  induction segs with
  | nil =>
    intro c r c2 h
    simp only [put_segments, Option.some.injEq] at h
    subst h
    rfl
  | cons seg rest ih =>
    intro c r c2 h
    simp only [put_segments] at h
    cases hg : hl_defs.get seg.hl_id with
    | none => rw [hg] at h; exact absurd h (by simp)
    | some hl =>
      rw [hg] at h
      simpa only [paintFold, hg] using ih _ r c2 h

/-- C1: a `put_line` whose row index is out of range of the current row store
returns the `PutLineRowNotFound` error with the whole grid state (rows,
surfaces, queued dirty rectangles — the entire context) unchanged, and a
`put_line` on an in-range row never returns that error. -/
theorem put_line_row_not_found_contract (ctx : Context) (line : GridLineSegment)
    (hl_defs : HlDefs) :
    (ctx.rows.length ≤ line.row →
      Grid.put_line ctx line hl_defs =
        some (ctx, Except.error (Error.PutLineRowNotFound line.row))) ∧
    (line.row < ctx.rows.length →
      ∀ c e, Grid.put_line ctx line hl_defs = some (c, e) → e = Except.ok ()) := by
  constructor
  · intro h
    unfold Grid.put_line
    rw [List.get?_eq_none.mpr h]
  · intro h c e hput
    unfold Grid.put_line at hput
    cases hg : ctx.rows.get? line.row with
    | none =>
      rw [List.get?_eq_none] at hg
      omega
    | some row0 =>
      rw [hg] at hput
      simp only [Option.map_eq_some'] at hput
      obtain ⟨c1, hc1, heq⟩ := hput
      cases heq
      rfl

/-- Witness for C1 at the concrete `ctxBase`: the out-of-range row 5 fails
with `PutLineRowNotFound 5` leaving the context untouched, and the in-range
row 0 yields no error. -/
theorem put_line_row_not_found_contract_witness :
    Grid.put_line ctxBase lineOut testHl =
      some (ctxBase, Except.error (Error.PutLineRowNotFound 5)) ∧
    Except.ok () = (Except.ok () : Except Error Unit) :=
  ⟨(put_line_row_not_found_contract ctxBase lineOut testHl).1 (by decide),
   (put_line_row_not_found_contract ctxBase
      { row := 0, col_start := 0, cells := [] } testHl).2 (by decide)
     c1InCtx (Except.ok ()) (by with_unfolding_all rfl)⟩

/-- C2 (amended): the dirty rectangle `put_segments` computes for a segment
spanning columns `[c, c+n)` of row `r` has a floored origin at or before the
true pixel origin `(c*w, r*h)` and a ceiled extent at least the true extent
`(n*w, h)`. (The full-coverage form of the claim — origin plus extent reaching
`((c+n)*w, (r+1)*h)` — fails, see the counterexample.) -/
theorem dirty_rect_floors_origin_ceils_extent (start len row : ℕ) (cw ch : ℚ) :
    (segRect start len row cw ch).x ≤ (start : ℚ) * cw ∧
    (segRect start len row cw ch).y ≤ (row : ℚ) * ch ∧
    (len : ℚ) * cw ≤ (segRect start len row cw ch).w ∧
    ch ≤ (segRect start len row cw ch).h :=
  ⟨qfloor_le _, qfloor_le _, le_qceil _, le_qceil _⟩

/-- Counterexample to C2 as stated: with cell width 17/10 the rectangle for
the segment spanning column `[1, 2)` of row 0 ends at pixel
`floor(17/10) + ceil(17/10) = 3`, short of the true right edge
`2 * 17/10 = 17/5`, so the floored origin plus ceiled extent does not cover
the whole true pixel area. -/
theorem dirty_rect_counterexample : ¬ dirtyCovers 1 1 0 (17/10 : ℚ) 1 := by
  intro h
  obtain ⟨-, -, h3, -⟩ := h
  have hx : (segRect 1 1 0 (17/10 : ℚ) 1).x = 1 := by
    norm_num [segRect, qfloor]
  have hw : (segRect 1 1 0 (17/10 : ℚ) 1).w = 2 := by
    have hc : ⌈(17/10 : ℚ)⌉ = 2 := by
      rw [Int.ceil_eq_iff] <;> norm_num
    norm_num [segRect, qceil, hc]
  rw [hx, hw] at h3
  norm_num at h3

/-- C8: `get_cursor_rect` returns the floored pixel origin of the cursor
position, width `ceil(2 * cell_width)` when the cell under the cursor is
double width and `ceil(cell_width)` otherwise, and height `ceil(cell_height)`,
for every context (hence for all metrics). -/
theorem get_cursor_rect_dimensions (ctx : Context) :
    ctx.get_cursor_rect =
      (⌊(ctx.cursor.pos.getD (0, 0)).2 * ctx.cell_metrics.width⌋,
       ⌊(ctx.cursor.pos.getD (0, 0)).1 * ctx.cell_metrics.height⌋,
       (if (ctx.cell_at_cursor.map Cell.double_width).getD false
        then ⌈2 * ctx.cell_metrics.width⌉
        else ⌈ctx.cell_metrics.width⌉),
       ⌈ctx.cell_metrics.height⌉) := by
  simp only [Context.get_cursor_rect, get_coords]
  rw [mul_comm ctx.cell_metrics.width 2]

/-- C9: the paint callback draws a cursor exactly when the context is not busy
and active (so a busy or inactive grid never paints one, in every state), and
the busy/active transitions change that flag and nothing else. -/
theorem cursor_paint_gated_by_busy_active (ctx : Context) (b a : Bool) :
    (drawsCursor (drawingarea_draw ctx) = true ↔ ctx.busy = false ∧ ctx.active = true) ∧
    Grid.set_busy ctx b =
      { surfaces := ctx.surfaces, cell_metrics := ctx.cell_metrics, rows := ctx.rows
        cursor := ctx.cursor, cursor_context := ctx.cursor_context, busy := b
        active := ctx.active, scroll_speed := ctx.scroll_speed
        queue_draw_area := ctx.queue_draw_area } ∧
    Grid.set_active ctx a =
      { surfaces := ctx.surfaces, cell_metrics := ctx.cell_metrics, rows := ctx.rows
        cursor := ctx.cursor, cursor_context := ctx.cursor_context, busy := ctx.busy
        active := a, scroll_speed := ctx.scroll_speed
        queue_draw_area := ctx.queue_draw_area } := by
  refine ⟨?_, rfl, rfl⟩
  cases hb : ctx.busy <;> cases ha : ctx.active <;>
    cases hanim : ctx.surfaces.offset_y_anim <;>
      simp [drawingarea_draw, drawsCursor, hb, ha, hanim]

/-- C6: whenever a scroll animation is active, the paint callback paints the
back surface at `offset_y - anim.start` and then the front surface at
`offset_y`; with no animation active only the front surface is painted, at the
resting offset. -/
theorem draw_scroll_composition (ctx : Context) :
    (∀ anim, ctx.surfaces.offset_y_anim = some anim →
      surfacePaints (drawingarea_draw ctx) =
        [(SurfId.back, ctx.surfaces.offset_y - anim.start),
         (SurfId.front, ctx.surfaces.offset_y)]) ∧
    (ctx.surfaces.offset_y_anim = none →
      surfacePaints (drawingarea_draw ctx) = [(SurfId.front, ctx.surfaces.offset_y)]) := by
  constructor
  · intro anim ha
    cases hb : ctx.busy <;> cases hac : ctx.active <;>
      simp [drawingarea_draw, surfacePaints, ha, hb, hac]
  · intro ha
    cases hb : ctx.busy <;> cases hac : ctx.active <;>
      simp [drawingarea_draw, surfacePaints, ha, hb, hac]

/-- Witness for C6 at concrete contexts: `ctxAnim` (animation from offset 2,
currently at offset 7) paints back at 5 then front at 7; `ctxBase` (no
animation) paints only the front surface at its resting offset 0. -/
theorem draw_scroll_composition_witness :
    surfacePaints (drawingarea_draw ctxAnim) =
      [(SurfId.back, ctxAnim.surfaces.offset_y - animA.start),
       (SurfId.front, ctxAnim.surfaces.offset_y)] ∧
    surfacePaints (drawingarea_draw ctxBase) = [(SurfId.front, ctxBase.surfaces.offset_y)] :=
  ⟨(draw_scroll_composition ctxAnim).1 animA rfl,
   (draw_scroll_composition ctxBase).2 rfl⟩

/-- C5: a `put_line` on an in-range row paints exactly the reverse of the
affected-segment list the row update returned, and the painter
(`put_segments`) paints any segment list in exactly the order it receives it
(`paintFold`). -/
theorem put_line_paints_reversed (ctx : Context) (line : GridLineSegment)
    (hl_defs : HlDefs) (ctx2 : Context)
    (h : Grid.put_line ctx line hl_defs = some (ctx2, Except.ok ())) :
    (∀ row0, ctx.rows.get? line.row = some row0 →
      paintFold hl_defs line.row ctx.surfaces.front
        ((Row.update row0 line).2.reverse) = some ctx2.surfaces.front) ∧
    (∀ (c : Context) (segs : List Segment) (r : ℕ) (c2 : Context),
      put_segments c hl_defs segs r = some c2 →
      paintFold hl_defs r c.surfaces.front segs = some c2.surfaces.front) := by
  refine ⟨?_, fun c segs r c2 hp => put_segments_paintFold hl_defs segs c r c2 hp⟩
  intro row0 hrow
  unfold Grid.put_line at h
  rw [hrow] at h
  simp only [Option.map_eq_some'] at h
  obtain ⟨c1, hc1, heq⟩ := h
  cases heq
  exact put_segments_paintFold hl_defs _
    { ctx with rows := ctx.rows.set line.row (Row.update row0 line).1 } line.row ctx2 hc1

/-- Witness for C5 at the concrete `ctxBase`: the in-range `lineIn` update
paints the reversed affected-segment list, and `put_segments` paints the
one-segment list `[segB]` in the order received. -/
theorem put_line_paints_reversed_witness :
    paintFold testHl 0 ctxBase.surfaces.front ((Row.update (Row.new 2) lineIn).2.reverse) =
      some putLineRes.1.surfaces.front ∧
    paintFold testHl 0 ctxBase.surfaces.front [segB] = some putSegRes.surfaces.front :=
  ⟨(put_line_paints_reversed ctxBase lineIn testHl putLineRes.1
      (by with_unfolding_all rfl)).1 (Row.new 2) rfl,
   (put_line_paints_reversed ctxBase lineIn testHl putLineRes.1
      (by with_unfolding_all rfl)).2 ctxBase [segB] 0 putSegRes (by with_unfolding_all rfl)⟩

/-- C3: a resize that succeeds keeps the old vertical offset and in-flight
scroll animation on the new surface set, recomputes the cell metrics during
the resize, and copies the old front surface content into the new front
surface clipped to `new_cell_width * prev_cols` by `new_cell_height *
prev_rows` — the previously valid extent measured with the new metrics. -/
theorem resize_keeps_anim_salvages_with_new_metrics (ctx : Context)
    (cols rows : ℕ) (fm : PangoFontMetrics) (hl_defs : HlDefs) (ctx2 : Context)
    (h : Context.resize ctx cols rows (some fm) hl_defs = some (ctx2, Except.ok ())) :
    ctx2.surfaces.offset_y = ctx.surfaces.offset_y ∧
    ctx2.surfaces.offset_y_anim = ctx.surfaces.offset_y_anim ∧
    CellMetrics.update ctx.cell_metrics (some fm) = Except.ok ctx2.cell_metrics ∧
    ctx2.surfaces.front =
      SurfaceOps.copyClipped (SurfaceOps.bgFill hl_defs.default_bg) ctx.surfaces.front
        (ctx2.cell_metrics.width * (((ctx.rows.head?.map List.length).getD 0 : ℕ) : ℚ))
        (ctx2.cell_metrics.height * (ctx.rows.length : ℚ)) := by
  simp only [Context.resize] at h
  cases hh : (if ctx.rows.length ≠ rows then resizeWith ctx.rows rows cols else ctx.rows).head? with
  | none =>
    rw [hh] at h
    exact absurd h (by simp)
  | some r0 =>
    rw [hh] at h
    simp only [CellMetrics.update, Option.some.injEq, Prod.mk.injEq] at h
    obtain ⟨h1, -⟩ := h
    subst h1
    exact ⟨rfl, rfl, rfl, rfl⟩

/-- Witness for C3 at the concrete `ctxBase` resized to 3 by 3 with `fmA`. -/
theorem resize_keeps_anim_salvages_with_new_metrics_witness :
    resizeRes.1.surfaces.offset_y = ctxBase.surfaces.offset_y ∧
    resizeRes.1.surfaces.offset_y_anim = ctxBase.surfaces.offset_y_anim ∧
    CellMetrics.update ctxBase.cell_metrics (some fmA) = Except.ok resizeRes.1.cell_metrics ∧
    resizeRes.1.surfaces.front =
      SurfaceOps.copyClipped (SurfaceOps.bgFill testHl.default_bg) ctxBase.surfaces.front
        (resizeRes.1.cell_metrics.width * (((ctxBase.rows.head?.map List.length).getD 0 : ℕ) : ℚ))
        (resizeRes.1.cell_metrics.height * (ctxBase.rows.length : ℚ)) :=
  resize_keeps_anim_salvages_with_new_metrics ctxBase 3 3 fmA testHl resizeRes.1
    (by with_unfolding_all rfl)

/-- C7 (corrected): when the measurement backend returns no metrics, both
`update_metrics` and `resize` fail with the `GetPangoMetrics` error and leave
the previously computed pixel metrics intact; `resize` also keeps font and
line space, but `update_metrics` has already assigned the new font and line
space before the failing measurement, so those two fields are not left
intact (see the counterexample). -/
theorem metrics_unavailable_failure (ctx : Context) (font : Font) (line_space : ℤ)
    (cols rows : ℕ) (hl_defs : HlDefs) :
    ((Context.update_metrics ctx font line_space none).2 =
        Except.error Error.GetPangoMetrics ∧
     (Context.update_metrics ctx font line_space none).1 =
       { ctx with cell_metrics :=
           { ctx.cell_metrics with font := font, line_space := line_space } }) ∧
    (∀ ctx2 e, Context.resize ctx cols rows none hl_defs = some (ctx2, e) →
      e = Except.error Error.GetPangoMetrics ∧
      ctx2.cell_metrics = ctx.cell_metrics ∧
      ctx2.surfaces = ctx.surfaces ∧
      ctx2.queue_draw_area = ctx.queue_draw_area) := by
  refine ⟨⟨rfl, rfl⟩, ?_⟩
  intro ctx2 e h
  simp only [Context.resize] at h
  cases hh : (if ctx.rows.length ≠ rows then resizeWith ctx.rows rows cols else ctx.rows).head? with
  | none =>
    rw [hh] at h
    exact absurd h (by simp)
  | some r0 =>
    rw [hh] at h
    simp only [CellMetrics.update, Option.some.injEq, Prod.mk.injEq] at h
    obtain ⟨h1, h2⟩ := h
    subst h1
    subst h2
    exact ⟨rfl, rfl, rfl, rfl⟩

/-- Counterexample to C7 as stated: a failing `update_metrics` on `ctxBase`
with a new font and line space 7 returns the error but has replaced the
context's font and line space, so the metrics state including font and line
space is not left intact. -/
theorem metrics_unavailable_counterexample :
    (Context.update_metrics ctxBase { guifont := "Other" } 7 none).2 =
      Except.error Error.GetPangoMetrics ∧
    (Context.update_metrics ctxBase { guifont := "Other" } 7 none).1.cell_metrics.font ≠
      ctxBase.cell_metrics.font ∧
    (Context.update_metrics ctxBase { guifont := "Other" } 7 none).1.cell_metrics.line_space ≠
      ctxBase.cell_metrics.line_space := by
  refine ⟨rfl, ?_, ?_⟩ <;> decide

/-- Witness for C7 at the concrete `ctxBase`: the failing `update_metrics`
keeps the pixel metrics and takes the new font, and the failing resize
reports the error with metrics, surfaces and queue untouched. -/
theorem metrics_unavailable_failure_witness :
    ((Context.update_metrics ctxBase fontA 0 none).2 =
        Except.error Error.GetPangoMetrics ∧
     (Context.update_metrics ctxBase fontA 0 none).1 =
       { ctxBase with cell_metrics :=
           { ctxBase.cell_metrics with font := fontA, line_space := 0 } }) ∧
    (resizeErrRes.2 = Except.error Error.GetPangoMetrics ∧
     resizeErrRes.1.cell_metrics = ctxBase.cell_metrics ∧
     resizeErrRes.1.surfaces = ctxBase.surfaces ∧
     resizeErrRes.1.queue_draw_area = ctxBase.queue_draw_area) :=
  ⟨(metrics_unavailable_failure ctxBase fontA 0 3 3 testHl).1,
   (metrics_unavailable_failure ctxBase fontA 0 3 3 testHl).2
     resizeErrRes.1 resizeErrRes.2 (by with_unfolding_all rfl)⟩

/-- C4: on every tick with `blink_on` nonzero, the cursor surface is repainted
with alpha computed from the ticked blink phase as `phase` when `phase <= 1`
and `2 - phase` otherwise (`renderAlpha`), and that alpha lies in `[0, 1]`;
with `blink_on` zero the blink rendering phase is skipped (the cursor surface
is untouched by the tick) and `flush` paints the cursor cell fully opaque,
with alpha exactly 1. -/
theorem cursor_blink_alpha (ctx : Context) (ft : ℤ) (hl_defs : HlDefs) :
    (ctx.cursor.blink_on ≠ 0 →
      (Context.tick ctx ft).1.cursor_context =
        CursorDraw.blinkFill ctx.cursor.color
          (renderAlpha (blinkPhase ctx.cursor.blink_on ft)) ∧
      0 ≤ renderAlpha (blinkPhase ctx.cursor.blink_on ft) ∧
      renderAlpha (blinkPhase ctx.cursor.blink_on ft) ≤ 1) ∧
    (ctx.cursor.blink_on = 0 →
      (Context.tick ctx ft).1.cursor_context = ctx.cursor_context ∧
      ∀ cell ctx2 out, ctx.cell_at_cursor = some cell →
        Grid.flush ctx hl_defs = some (ctx2, out) →
        CursorDraw.alphaOf ctx2.cursor_context = some 1) := by
  constructor
  · intro hb
    refine ⟨?_, ?_, ?_⟩
    · simp only [Context.tick, Cursor.tick, if_neg hb]
    · exact (renderAlpha_mem _ (blinkPhase_nonneg _ ft hb)
        (le_of_lt (blinkPhase_lt_two _ ft hb))).1
    · exact (renderAlpha_mem _ (blinkPhase_nonneg _ ft hb)
        (le_of_lt (blinkPhase_lt_two _ ft hb))).2
  · intro h0
    constructor
    · simp only [Context.tick, Cursor.tick, if_pos h0]
    · intro cell ctx2 out hcell hflush
      cases hg : hl_defs.get cell.hl_id with
      | none =>
        simp only [Grid.flush, hcell, h0, eq_self_iff_true, if_true, cursor_cell, hg,
          Option.map_none'] at hflush
        exact Option.noConfusion hflush
      | some hl =>
        simp only [Grid.flush, hcell, h0, eq_self_iff_true, if_true, cursor_cell, hg,
          Option.map_some', Option.some.injEq, Prod.mk.injEq] at hflush
        obtain ⟨h1, -⟩ := hflush
        rw [← h1]
        rfl

/-- Witness for C4: `ctxBlink` (blink rate 3, frame time 5) repaints the
cursor surface with the bounded folded alpha, while `ctxCell` (not blinking,
cursor on cell (0, 0)) keeps its cursor surface over the tick and its flush
draws the cursor cell with alpha exactly 1. -/
theorem cursor_blink_alpha_witness :
    ((Context.tick ctxBlink 5).1.cursor_context =
        CursorDraw.blinkFill ctxBlink.cursor.color
          (renderAlpha (blinkPhase ctxBlink.cursor.blink_on 5)) ∧
      0 ≤ renderAlpha (blinkPhase ctxBlink.cursor.blink_on 5) ∧
      renderAlpha (blinkPhase ctxBlink.cursor.blink_on 5) ≤ 1) ∧
    (Context.tick ctxCell 5).1.cursor_context = ctxCell.cursor_context ∧
    CursorDraw.alphaOf flushRes.1.cursor_context = some 1 :=
  ⟨(cursor_blink_alpha ctxBlink 5 testHl).1 (by decide),
   ((cursor_blink_alpha ctxCell 5 testHl).2 rfl).1,
   ((cursor_blink_alpha ctxCell 5 testHl).2 rfl).2 defaultCell flushRes.1 flushRes.2
     (by with_unfolding_all rfl) (by with_unfolding_all rfl)⟩

/-- C10: `Context::resize` and `Grid::get_grid_metrics` unwrap the first row
of the row store: a resize to at least one row never hits that panic, a
resize to zero rows always panics, and `get_grid_metrics` on a freshly
constructed context (whose row store is empty until the first resize)
panics. -/
theorem first_row_unwrap_contract (ctx : Context) (cols rows : ℕ)
    (fm : Option PangoFontMetrics) (hl_defs : HlDefs) (font : Font)
    (line_space : ℤ) (en : Bool) (ss : ℤ) (ctx0 : Context) :
    (1 ≤ rows → (Context.resize ctx cols rows fm hl_defs).isSome = true) ∧
    Context.resize ctx cols 0 fm hl_defs = none ∧
    (Context.new font line_space cols rows hl_defs en ss fm = Except.ok ctx0 →
      Grid.get_grid_metrics ctx0 = none) := by
  refine ⟨?_, ?_, ?_⟩
  · intro hr
    simp only [Context.resize]
    have hlen : (if ctx.rows.length ≠ rows then resizeWith ctx.rows rows cols
        else ctx.rows).length = rows := by
      split
      · simp only [resizeWith, List.length_append, List.length_take, List.length_replicate]
        omega
      · omega
    cases hh : (if ctx.rows.length ≠ rows then resizeWith ctx.rows rows cols
        else ctx.rows).head? with
    | none =>
      exfalso
      rw [List.head?_eq_none_iff] at hh
      rw [hh] at hlen
      simp at hlen
      omega
    | some r0 =>
      cases hcm : CellMetrics.update ctx.cell_metrics fm <;> simp [hcm]
  · simp only [Context.resize]
    have hnil : (if ctx.rows.length ≠ 0 then resizeWith ctx.rows 0 cols else ctx.rows) = [] := by
      split
      · simp [resizeWith]
      · next hne =>
        have : ctx.rows.length = 0 := by omega
        exact List.length_eq_zero.mp this
    rw [hnil]
    rfl
  · intro h
    cases fm with
    | none => simp [Context.new, CellMetrics.update] at h
    | some fmv =>
      simp only [Context.new, CellMetrics.update, Except.ok.injEq] at h
      subst h
      rfl

/-- Witness for C10: resizing `ctxBase` to 2 rows succeeds, resizing it to 0
rows panics, and the freshly constructed `newCtxA` panics in
`get_grid_metrics`. -/
theorem first_row_unwrap_contract_witness :
    (Context.resize ctxBase 3 2 (some fmA) testHl).isSome = true ∧
    Context.resize ctxBase 3 0 (some fmA) testHl = none ∧
    Grid.get_grid_metrics newCtxA = none :=
  ⟨(first_row_unwrap_contract ctxBase 3 2 (some fmA) testHl fontA 0 true 100 newCtxA).1
      (by decide),
   (first_row_unwrap_contract ctxBase 3 0 (some fmA) testHl fontA 0 true 100 newCtxA).2.1,
   (first_row_unwrap_contract ctxBase 3 2 (some fmA) testHl fontA 0 true 100 newCtxA).2.2
      (by with_unfolding_all rfl)⟩
